import Mathlib

/-!
Verification of the simple-sqlalchemy data-access layer.

This file shallowly embeds the parts of the repository that the checked
claims are about:

* the filter predicate compiler `BaseCrud._apply_filters` and the record
  constructor `BaseCrud.create` (src/simple_sqlalchemy/crud.py);
* the many-to-many strategy selector `create_m2m_strategy`,
  `_get_association_table_info`, `_can_use_efficient_query`, and the two
  strategies `EfficientM2MStrategy` / `OriginalM2MStrategy`
  (src/simple_sqlalchemy/helpers/m2m.py);
* the transactional scope `session_scope`
  (src/simple_sqlalchemy/session.py).

Python values, database rows and sessions are modelled with plain Lean
data; machine behaviour that the claims depend on (Python slice
semantics, SQL OFFSET/LIMIT, caught SQLAlchemy exceptions) is embedded
explicitly.
-/

/-- A Python value as it appears in filter dictionaries and in `create`
payloads.  `pynone` is Python `None`; `dict` is an association list with
the unique-key property of Python dicts left to hypotheses where needed. -/
inductive PyVal where
  | pynone
  | int (i : Int)
  | str (s : String)
  | bool (b : Bool)
  | list (vs : List PyVal)
  | dict (entries : List (String × PyVal))

/-- One compiled predicate clause, mirroring the single `query.filter(...)`
call added by each branch of `BaseCrud._apply_filters`. -/
inductive FilterPred where
  | eq (field : String) (v : PyVal)
  | inList (field : String) (vs : List PyVal)
  | isNull (field : String)
  | isNotNull (field : String)
  | ge (field : String) (v : PyVal)
  | le (field : String) (v : PyVal)
  | gt (field : String) (v : PyVal)
  | lt (field : String) (v : PyVal)
  | between (field : String) (lo hi : PyVal)
  | notIn (field : String) (v : PyVal)
  | like (field : String) (v : PyVal)
  | ilike (field : String) (v : PyVal)

/-- The `ValueError` message raised by `_apply_filters` when a dict filter
value contains no recognized operator key; it names the field and lists
the supported operators, as the source message does. -/
def invalidFilterMsg (field : String) : String :=
  "Invalid filter format for field " ++ field ++
    ". Supported dict operators: not, >=, <=, >, <, between, not_in, like, ilike"

/-- Models the unpacking `start, end = value[BETWEEN_KEY]`: unpacking succeeds exactly for a
two-element list; anything else raises (modelled as an error distinct
from the invalid-operator message). -/
def unpackBetween (field : String) (v : PyVal) : Except String FilterPred :=
  match v with
  | PyVal.list [lo, hi] => Except.ok (FilterPred.between field lo hi)
  | _ => Except.error ("cannot unpack between range for field " ++ field)

/-- The dict branch of `BaseCrud._apply_filters` (crud.py lines 101-125):
a first-match if/elif chain over the operator keys, in source order
`not`(with None), `>=`, `<=`, `>`, `<`, `between`, `not_in`, `like`,
`ilike`; if no key matches, the `ValueError` is raised. -/
def compileOpMap (field : String) (m : List (String × PyVal)) : Except String FilterPred :=
  match m.lookup "not" with
  | some PyVal.pynone => Except.ok (FilterPred.isNotNull field)
  | _ =>
    match m.lookup ">=" with
    | some v => Except.ok (FilterPred.ge field v)
    | none =>
      match m.lookup "<=" with
      | some v => Except.ok (FilterPred.le field v)
      | none =>
        match m.lookup ">" with
        | some v => Except.ok (FilterPred.gt field v)
        | none =>
          match m.lookup "<" with
          | some v => Except.ok (FilterPred.lt field v)
          | none =>
            match m.lookup "between" with
            | some v => unpackBetween field v
            | none =>
              match m.lookup "not_in" with
              | some v => Except.ok (FilterPred.notIn field v)
              | none =>
                match m.lookup "like" with
                | some v => Except.ok (FilterPred.like field v)
                | none =>
                  match m.lookup "ilike" with
                  | some v => Except.ok (FilterPred.ilike field v)
                  | none => Except.error (invalidFilterMsg field)

/-- One entry of the `_apply_filters` loop body: list values become IN
predicates, `None` becomes IS NULL, dicts go through the operator chain,
and every other value becomes an equality predicate (branch order as in
the source: `isinstance(value, list)`, `value is None`,
`isinstance(value, dict)`, else). -/
def compileEntry (field : String) (v : PyVal) : Except String FilterPred :=
  match v with
  | PyVal.list vs => Except.ok (FilterPred.inList field vs)
  | PyVal.pynone => Except.ok (FilterPred.isNull field)
  | PyVal.dict m => compileOpMap field m
  | v => Except.ok (FilterPred.eq field v)

/-- Embeds `BaseCrud._apply_filters`: iterate over the filter entries; entries
whose field is not an attribute of the model (`hasattr(self.model, field)`)
are skipped; otherwise the compiled predicate is appended to the query.
A raised `ValueError` aborts the loop and propagates.  `attrs` is the
list of the model attribute names; the query is the list of predicates
already applied. -/
def apply_filters (attrs : List String) (filters : List (String × PyVal))
    (query : List FilterPred) : Except String (List FilterPred) :=
  match filters with
  | [] => Except.ok query
  | (field, v) :: rest =>
    if field ∈ attrs then
      match compileEntry field v with
      | Except.ok p => apply_filters attrs rest (query ++ [p])
      | Except.error e => Except.error e
    else
      apply_filters attrs rest query

/-- The spec-side operator priority order: `not(null)`, `>=`, `<=`, `>`,
`<`, `between`, `not_in`, `like`, `ilike`. -/
def opPriority : List String :=
  ["not", ">=", "<=", ">", "<", "between", "not_in", "like", "ilike"]

/-- Whether a dict filter value recognizes key `k`: the `not` key only
counts together with value `None`; every other key counts by presence. -/
def recognizedKey (m : List (String × PyVal)) (k : String) : Bool :=
  if k == "not" then
    match m.lookup "not" with
    | some PyVal.pynone => true
    | _ => false
  else (m.lookup k).isSome

/-- Apply a single recognized operator key to its value. -/
def applyOneOp (field k : String) (v : PyVal) : Except String FilterPred :=
  if k == "not" then Except.ok (FilterPred.isNotNull field)
  else if k == ">=" then Except.ok (FilterPred.ge field v)
  else if k == "<=" then Except.ok (FilterPred.le field v)
  else if k == ">" then Except.ok (FilterPred.gt field v)
  else if k == "<" then Except.ok (FilterPred.lt field v)
  else if k == "between" then unpackBetween field v
  else if k == "not_in" then Except.ok (FilterPred.notIn field v)
  else if k == "like" then Except.ok (FilterPred.like field v)
  else Except.ok (FilterPred.ilike field v)

/-- Specification-side semantics of an operator-map filter, written from
the spec: find the FIRST recognized key in the fixed priority order and
apply only that key, ignoring all remaining keys of the map; if no key is
recognized, raise the invalid-operator error. -/
def compileOpMapPriority (field : String) (m : List (String × PyVal)) : Except String FilterPred :=
  match opPriority.find? (recognizedKey m) with
  | some k => applyOneOp field k ((m.lookup k).getD PyVal.pynone)
  | none => Except.error (invalidFilterMsg field)

/-- The entry condition of `BaseCrud.create` dict comprehension:
`v is not None and hasattr(self.model, k)`. -/
def keepEntry (attrs : List String) (kv : String × PyVal) : Bool :=
  (match kv.2 with | PyVal.pynone => false | _ => true) && attrs.contains kv.1

/-- Embeds the `BaseCrud.create` data cleaning (crud.py lines 219-224): entries whose
value is `None` or whose key is not an attribute of the model are dropped. -/
def cleanData (attrs : List String) (data : List (String × PyVal)) :
    List (String × PyVal) :=
  data.filter (keepEntry attrs)

/-- Models `self.model(**clean_data)`: the created record fields take the value
from the cleaned data when present and the column default otherwise. -/
def createRecord (attrs : List String) (defaults : String → PyVal)
    (data : List (String × PyVal)) : String → PyVal :=
  fun k => ((cleanData attrs data).lookup k).getD (defaults k)

/-!  ## Association-table introspection and strategy selection (m2m.py)  -/

/-- One column of a candidate association table: its name and, when it
carries a foreign key, the identity of the table its FIRST foreign key
references (`list(col.foreign_keys)[0].column.table`). -/
structure AssocCol where
  name : String
  fkTable : Option Nat
deriving DecidableEq

/-- A declared relationship as seen by `_get_association_table_info`:
the optional `secondary` (junction) table with its columns, and the
identities of the source model table and the relationship mapper
(target) table. -/
structure AssocRel where
  secondary : Option (List AssocCol)
  sourceTable : Nat
  targetTable : Nat
deriving DecidableEq

/-- The foreign-key scan loop of `_get_association_table_info`
(m2m.py lines 614-620): for each column with a foreign key, if it
references the source model table it becomes the source FK column,
`elif` it references the target mapper table it becomes the target FK
column; a later match overwrites an earlier one. -/
def findFkCols (rel : AssocRel) (cols : List AssocCol) :
    Option AssocCol × Option AssocCol :=
  cols.foldl
    (fun acc c =>
      match c.fkTable with
      | some tbl =>
        if tbl = rel.sourceTable then (some c, acc.2)
        else if tbl = rel.targetTable then (acc.1, some c)
        else acc
      | none => acc)
    (none, none)

/-- Embeds `_get_association_table_info`: `none` when the relationship has no
secondary table or either foreign-key column cannot be found; otherwise
the junction columns with the source and target FK columns. -/
def get_association_table_info (rel : AssocRel) :
    Option (List AssocCol × AssocCol × AssocCol) :=
  match rel.secondary with
  | none => none
  | some cols =>
    match findFkCols rel cols with
    | (some sfk, some tfk) => some (cols, sfk, tfk)
    | _ => none

/-- The whitelist of metadata columns an association table may carry
beyond its two foreign keys while still qualifying for the efficient
strategy (m2m.py line 655). -/
def allowedExtraColumns : List String :=
  ["created_at", "updated_at", "assigned_at", "tagged_at"]

/-- The column names of the junction table beyond the two foreign-key
columns (`all_columns - fk_columns` in the source, a set difference). -/
def extraColumnsOf (cols : List AssocCol) (sfk tfk : AssocCol) : List String :=
  (cols.map (fun c => c.name)).filter
    (fun n => !(n = sfk.name ∨ n = tfk.name : Bool))

/-- Embeds `_can_use_efficient_query`: it requires the association-table info to be
resolvable and every extra column to lie inside the whitelist
(`if extra_columns and not extra_columns.issubset(allowed): False`). -/
def can_use_efficient_query (rel : AssocRel) : Bool :=
  match get_association_table_info rel with
  | none => false
  | some (cols, sfk, tfk) =>
    !((extraColumnsOf cols sfk tfk).any (fun n => !(allowedExtraColumns.contains n)))

/-- Which strategy `create_m2m_strategy` returns. -/
inductive StrategyKind where
  | efficient
  | original
deriving DecidableEq

/-- Note that `_can_use_efficient_query` catches any exception raised while
introspecting the relationship and returns `False`; the introspection
outcome is modelled as `Except`, with `error` standing for a raised
exception. -/
def canUseEfficientQueryE (intro : Except String AssocRel) : Bool :=
  match intro with
  | Except.error _ => false
  | Except.ok rel => can_use_efficient_query rel

/-- Embeds `create_m2m_strategy` (m2m.py lines 416-434): the efficient strategy
is chosen when `_can_use_efficient_query` succeeds and the
`EfficientM2MStrategy` constructor does not raise; any exception inside
the `try` block falls back to `OriginalM2MStrategy`.  `ctorRaises`
injects an exception raised during efficient-strategy construction. -/
def create_m2m_strategy (intro : Except String AssocRel) (ctorRaises : Bool) :
    StrategyKind :=
  if canUseEfficientQueryE intro then
    if ctorRaises then StrategyKind.original else StrategyKind.efficient
  else StrategyKind.original

/-!  ## Database state and the two M2M strategies  -/

/-- The underlying database state for one many-to-many relationship with
a simple junction shape: the existing source-row ids, the existing
target-row ids, and the junction rows in storage order. -/
structure DBState where
  sources : List Int
  targets : List Int
  junction : List (Int × Int)
deriving DecidableEq

/-- Storage-failure injection for one operation: `noFault` is a normal
round trip, `queryFault` is a `SQLAlchemyError` raised by the first
statement the operation executes, `duplicateInsertFault` is an
`IntegrityError` (a `SQLAlchemyError`) raised by the junction insert of
`add_relationship` because a concurrent transaction already inserted the
same pair. -/
inductive StorageFault where
  | noFault
  | queryFault
  | duplicateInsertFault
deriving DecidableEq

/-- The outcome of an operation as seen by its caller: a returned value,
or an exception propagating out of the method. -/
inductive OpOutcome (α : Type) where
  | ok (a : α)
  | raised
deriving DecidableEq

/-- The target entities reachable from source `s` through the junction,
in junction-row order: both the efficient strategy JOIN on
`target.id == target_fk` and the ORM relationship collection materialize
only junction rows whose target row exists. -/
def loadRelated (st : DBState) (s : Int) : List Int :=
  (st.junction.filter (fun p => p.1 = s ∧ p.2 ∈ st.targets)).map (fun p => p.2)

/-- The source entities reachable from target `t` through the junction,
in junction-row order. -/
def loadSources (st : DBState) (t : Int) : List Int :=
  (st.junction.filter (fun p => p.2 = t ∧ p.1 ∈ st.sources)).map (fun p => p.1)

/-- How Python resolves one slice bound against a list: a negative index
counts from the end, and both directions clamp to the list. -/
def pyIdx (xs : List Int) (i : Int) : Int :=
  if i < 0 then max ((xs.length : Int) + i) 0 else min i (xs.length : Int)

/-- Python list slicing `xs[a:b]` with possibly negative bounds. -/
def pySlice (xs : List Int) (a b : Int) : List Int :=
  (xs.drop (pyIdx xs a).toNat).take (pyIdx xs b - pyIdx xs a).toNat

/-- The SQL-side pagination window of the efficient strategy: `OFFSET`
is applied only when `skip > 0` and `LIMIT` only when `limit > 0`. -/
def sqlWindow (xs : List Int) (skip limit : Int) : List Int :=
  let afterSkip := if skip > 0 then xs.drop skip.toNat else xs
  if limit > 0 then afterSkip.take limit.toNat else afterSkip

/-- The in-memory pagination of the original strategy (m2m.py lines
346-349): when `skip > 0 or limit > 0`, slice `xs[skip:skip+limit]` if
`limit > 0` and `xs[skip:]` otherwise; else take the whole collection. -/
def pyWindow (xs : List Int) (skip limit : Int) : List Int :=
  if skip > 0 ∨ limit > 0 then
    if limit > 0 then pySlice xs skip (skip + limit)
    else pySlice xs skip (xs.length : Int)
  else xs

/-- Foreign-key consistency of a database state: every junction row
references an existing source row and an existing target row, as the
junction table two foreign-key constraints guarantee. -/
def integrity (st : DBState) : Prop :=
  ∀ p ∈ st.junction, p.1 ∈ st.sources ∧ p.2 ∈ st.targets

namespace EfficientM2MStrategy

/-- Embeds `EfficientM2MStrategy.relationship_exists`: a single EXISTS probe of
the junction table (no endpoint materialization); on `SQLAlchemyError`
the handler logs and RE-RAISES. -/
def relationship_exists (st : DBState) (fault : StorageFault) (s t : Int) :
    OpOutcome Bool :=
  if fault ≠ StorageFault.noFault then OpOutcome.raised
  else OpOutcome.ok ((s, t) ∈ st.junction)

/-- Embeds `EfficientM2MStrategy.get_related_for_source`: JOIN of the target
table with the junction, `OFFSET`/`LIMIT` pushed to SQL; on
`SQLAlchemyError` the handler logs and returns `[]`. -/
def get_related_for_source (st : DBState) (fault : StorageFault) (s : Int)
    (skip limit : Int) : OpOutcome (List Int) :=
  if fault ≠ StorageFault.noFault then OpOutcome.ok []
  else OpOutcome.ok (sqlWindow (loadRelated st s) skip limit)

/-- Embeds `EfficientM2MStrategy.get_sources_for_target`: the symmetric JOIN;
on `SQLAlchemyError` the handler logs and returns `[]`. -/
def get_sources_for_target (st : DBState) (fault : StorageFault) (t : Int)
    (skip limit : Int) : OpOutcome (List Int) :=
  if fault ≠ StorageFault.noFault then OpOutcome.ok []
  else OpOutcome.ok (sqlWindow (loadSources st t) skip limit)

/-- Embeds `EfficientM2MStrategy.count_related_for_source`: a single COUNT over
the junction rows with the given source id (no join, no endpoint check);
on `SQLAlchemyError` the handler logs and returns `0`. -/
def count_related_for_source (st : DBState) (fault : StorageFault) (s : Int) :
    OpOutcome Nat :=
  if fault ≠ StorageFault.noFault then OpOutcome.ok 0
  else OpOutcome.ok (st.junction.filter (fun p => p.1 = s)).length

/-- Embeds `EfficientM2MStrategy.count_sources_for_target`: COUNT over the
junction rows with the given target id; on `SQLAlchemyError` the handler
logs and returns `0`. -/
def count_sources_for_target (st : DBState) (fault : StorageFault) (t : Int) :
    OpOutcome Nat :=
  if fault ≠ StorageFault.noFault then OpOutcome.ok 0
  else OpOutcome.ok (st.junction.filter (fun p => p.2 = t)).length

/-- Embeds `EfficientM2MStrategy.add_relationship` (m2m.py lines 92-141):
lightweight existence checks on both endpoints (`None` when either is
missing), a duplicate check through `relationship_exists`, then a direct
junction insert.  Every `SQLAlchemyError` in the block — including an
`IntegrityError` from a concurrent duplicate insert — is caught, logged,
and turned into a returned `None`; under `duplicateInsertFault` the
concurrent transaction row is the one left in the junction. -/
def add_relationship (st : DBState) (fault : StorageFault) (s t : Int) :
    Option Int × DBState :=
  match fault with
  | StorageFault.queryFault => (none, st)
  | StorageFault.noFault =>
    if s ∈ st.sources ∧ t ∈ st.targets then
      if (s, t) ∈ st.junction then (some s, st)
      else (some s, { st with junction := st.junction ++ [(s, t)] })
    else (none, st)
  | StorageFault.duplicateInsertFault =>
    if s ∈ st.sources ∧ t ∈ st.targets then
      if (s, t) ∈ st.junction then (some s, st)
      else (none, { st with junction := st.junction ++ [(s, t)] })
    else (none, st)

/-- Embeds `EfficientM2MStrategy.remove_relationship`: a direct DELETE of every
matching junction row (committed even when the source row is missing,
in which case `None` is returned); on `SQLAlchemyError` the handler logs
and returns `None`. -/
def remove_relationship (st : DBState) (fault : StorageFault) (s t : Int) :
    Option Int × DBState :=
  if fault ≠ StorageFault.noFault then (none, st)
  else
    let st2 := { st with junction := st.junction.filter (fun p => ¬(p = (s, t))) }
    if s ∈ st.sources then (some s, st2) else (none, st2)

end EfficientM2MStrategy

namespace OriginalM2MStrategy

/-- Embeds `OriginalM2MStrategy.relationship_exists`: loads both endpoint
entities (`False` when either is missing) and tests membership of the
target in the loaded relationship collection. -/
def relationship_exists (st : DBState) (s t : Int) : Bool :=
  if s ∈ st.sources ∧ t ∈ st.targets then
    decide (t ∈ loadRelated st s)
  else false

/-- Embeds `OriginalM2MStrategy.get_related_for_source`: loads the owning entity
(`[]` when missing), reads the ENTIRE relationship collection, and
paginates in memory by Python slicing. -/
def get_related_for_source (st : DBState) (s : Int) (skip limit : Int) :
    List Int :=
  if s ∈ st.sources then pyWindow (loadRelated st s) skip limit else []

/-- Embeds `OriginalM2MStrategy.get_sources_for_target`: symmetric in-memory
pagination of the reverse collection. -/
def get_sources_for_target (st : DBState) (t : Int) (skip limit : Int) :
    List Int :=
  if t ∈ st.targets then pyWindow (loadSources st t) skip limit else []

/-- Embeds `OriginalM2MStrategy.count_related_for_source`: `0` when the source
row is missing, else the length of the loaded collection. -/
def count_related_for_source (st : DBState) (s : Int) : Nat :=
  if s ∈ st.sources then (loadRelated st s).length else 0

/-- Embeds `OriginalM2MStrategy.count_sources_for_target`: `0` when the target
row is missing, else the length of the reverse collection. -/
def count_sources_for_target (st : DBState) (t : Int) : Nat :=
  if t ∈ st.targets then (loadSources st t).length else 0

/-- Embeds `OriginalM2MStrategy.add_relationship` (m2m.py lines 270-299): loads
both endpoints (`None` when either is missing), appends the target to
the relationship collection unless already present, and returns the
owning entity; a `SQLAlchemyError` is caught, logged and `None`
returned. -/
def add_relationship (st : DBState) (fault : StorageFault) (s t : Int) :
    Option Int × DBState :=
  if fault ≠ StorageFault.noFault then (none, st)
  else if s ∈ st.sources ∧ t ∈ st.targets then
    if (s, t) ∈ st.junction then (some s, st)
    else (some s, { st with junction := st.junction ++ [(s, t)] })
  else (none, st)

end OriginalM2MStrategy

/-!  ## Transactional scope (session.py) and scope accounting  -/

/-- What a single `session_scope` does with its session, observable from
outside: the value or exception handed to the caller, and whether the
session was committed, rolled back, and closed. -/
structure ScopeResult (α : Type) where
  result : Except String α
  committed : Bool
  rolledBack : Bool
  closed : Bool

/-- Embeds `session_scope` (session.py lines 14-43): run the body in a fresh
session; on normal completion commit and keep the body state; on a
raised exception roll back (discarding the body uncommitted state) and
re-raise; `session.close()` runs in a `finally` on both paths. -/
def session_scope {α : Type} (body : DBState → Except String (α × DBState))
    (st : DBState) : ScopeResult α × DBState :=
  match body st with
  | Except.ok (a, st2) =>
    (⟨Except.ok a, true, false, true⟩, st2)
  | Except.error e =>
    (⟨Except.error e, false, true, true⟩, st)

/-- Number of transactional scopes a fault-free
`EfficientM2MStrategy.relationship_exists` call opens: its own
`with self.db_client.session_scope()` block. -/
def efficientExistsScopeCount : Nat := 1

/-- Number of transactional scopes a fault-free
`EfficientM2MStrategy.add_relationship` call opens: its own `with`
block, plus the nested scope opened by the `self.relationship_exists`
duplicate check, which is reached exactly when both endpoint existence
probes succeed. -/
def efficientAddScopeCount (st : DBState) (s t : Int) : Nat :=
  1 + (if s ∈ st.sources ∧ t ∈ st.targets then efficientExistsScopeCount else 0)

/-!  ## Helper lemmas  -/

/-- The source if/elif operator chain coincides with the spec-side
first-match-in-priority-order semantics, for every operator map. -/
theorem compileOpMap_eq_priority (field : String) (m : List (String × PyVal)) :
    compileOpMap field m = compileOpMapPriority field m := by
  unfold compileOpMap compileOpMapPriority opPriority recognizedKey applyOneOp
  simp only [List.find?]
  cases hnot : m.lookup "not" with
  | some v =>
    cases v <;> simp [hnot] <;>
    · cases h1 : m.lookup ">=" <;> simp [h1]
      cases h2 : m.lookup "<=" <;> simp [h2]
      cases h3 : m.lookup ">" <;> simp [h3]
      cases h4 : m.lookup "<" <;> simp [h4]
      cases h5 : m.lookup "between" <;> simp [h5]
      cases h6 : m.lookup "not_in" <;> simp [h6]
      cases h7 : m.lookup "like" <;> simp [h7]
      cases h8 : m.lookup "ilike" <;> simp [h8]
  | none =>
    simp [hnot]
    cases h1 : m.lookup ">=" <;> simp [h1]
    cases h2 : m.lookup "<=" <;> simp [h2]
    cases h3 : m.lookup ">" <;> simp [h3]
    cases h4 : m.lookup "<" <;> simp [h4]
    cases h5 : m.lookup "between" <;> simp [h5]
    cases h6 : m.lookup "not_in" <;> simp [h6]
    cases h7 : m.lookup "like" <;> simp [h7]
    cases h8 : m.lookup "ilike" <;> simp [h8]


/-- In an association list with no duplicate keys, membership determines
the lookup result. -/
theorem lookup_eq_of_mem_of_nodup :
    ∀ (data : List (String × PyVal)) (k : String) (v : PyVal),
      (data.map Prod.fst).Nodup → (k, v) ∈ data → data.lookup k = some v := by
  intro data
  induction data with
  | nil => intro k v _ hmem; cases hmem
  | cons kv rest ih =>
    obtain ⟨k1, v1⟩ := kv
    intro k v hnodup hmem
    rw [List.map_cons] at hnodup
    have hn := List.nodup_cons.mp hnodup
    rcases List.mem_cons.mp hmem with heq | hmem2
    · cases heq; simp [List.lookup]
    · have hk : (k == k1) = false := by
        apply beq_eq_false_iff_ne.mpr
        intro h
        exact hn.1 (h ▸ List.mem_map.mpr ⟨(k, v), hmem2, rfl⟩)
      simp [List.lookup, hk]
      exact ih k v hn.2 hmem2

/-- If every entry of the data with key `k` is dropped by `cleanData`,
then `k` is absent from the cleaned data. -/
theorem cleanData_lookup_eq_none :
    ∀ (attrs : List String) (data : List (String × PyVal)) (k : String),
      (∀ v, (k, v) ∈ data → v = PyVal.pynone ∨ k ∉ attrs) →
      (cleanData attrs data).lookup k = none := by
  intro attrs data
  induction data with
  | nil => intro k _; rfl
  | cons kv rest ih =>
    obtain ⟨k1, v1⟩ := kv
    intro k h
    have hrest : (cleanData attrs rest).lookup k = none :=
      ih k (fun v hv => h v (List.mem_cons_of_mem _ hv))
    unfold cleanData at hrest ⊢
    rw [List.filter_cons]
    by_cases hkeep : keepEntry attrs (k1, v1) = true
    · rw [if_pos hkeep]
      have hk : (k == k1) = false := by
        apply beq_eq_false_iff_ne.mpr
        intro hkk
        subst hkk
        rcases h v1 (List.mem_cons_self _ _) with hv | hattr
        · subst hv; simp [keepEntry] at hkeep
        · simp only [keepEntry, Bool.and_eq_true] at hkeep
          exact hattr (by simpa using hkeep.2)
      simp only [List.lookup, hk]
      exact hrest
    · rw [if_neg hkeep]
      exact hrest

/-- Filtering an association list by a condition the first `k`-entry
satisfies does not change the lookup result at `k`. -/
theorem filter_lookup_eq (p : String × PyVal → Bool) :
    ∀ (data : List (String × PyVal)) (k : String) (v : PyVal),
      data.lookup k = some v → p (k, v) = true →
      (data.filter p).lookup k = some v := by
  intro data
  induction data with
  | nil => intro k v h _; cases h
  | cons kv rest ih =>
    obtain ⟨k1, v1⟩ := kv
    intro k v hlk hp
    by_cases hk : (k == k1) = true
    · have hkk : k = k1 := eq_of_beq hk
      simp only [List.lookup, hk] at hlk
      cases hlk
      subst hkk
      rw [List.filter_cons]
      rw [if_pos hp]
      simp [List.lookup]
    · have hkf : (k == k1) = false := by simpa using hk
      simp only [List.lookup, hkf] at hlk
      rw [List.filter_cons]
      by_cases hp1 : p (k1, v1) = true
      · rw [if_pos hp1]
        simp only [List.lookup, hkf]
        exact ih k v hlk hp
      · rw [if_neg hp1]
        exact ih k v hlk hp

/-- A characterization of `_can_use_efficient_query`: it succeeds exactly
when the association info is resolvable and all extra columns lie in the
metadata whitelist. -/
theorem can_use_iff (rel : AssocRel) :
    can_use_efficient_query rel = true ↔
      ∃ cols sfk tfk, get_association_table_info rel = some (cols, sfk, tfk) ∧
        ∀ n ∈ extraColumnsOf cols sfk tfk, n ∈ allowedExtraColumns := by
  unfold can_use_efficient_query
  cases hinfo : get_association_table_info rel with
  | none => simp
  | some info =>
    obtain ⟨cols, sfk, tfk⟩ := info
    rw [Bool.not_eq_true', List.any_eq_false]
    constructor
    · intro h
      refine ⟨cols, sfk, tfk, rfl, fun n hn => ?_⟩
      have := h n hn
      simpa using this
    · rintro ⟨cols2, sfk2, tfk2, heq, hsub⟩
      injection heq with heq2
      injection heq2 with h1 h23
      injection h23 with h2 h3
      subst h1; subst h2; subst h3
      intro n hn
      simpa using hsub n hn

/-- Taking at most the length of a list is the same as taking the
unclamped amount. -/
theorem take_min {α : Type} (l : List α) (k : Nat) : l.take (min k l.length) = l.take k := by
  rcases le_total k l.length with h | h
  · rw [Nat.min_eq_left h]
  · rw [Nat.min_eq_right h, List.take_length, List.take_of_length_le h]

/-- For nonnegative bounds, a Python slice is drop-then-take. -/
theorem pySlice_nonneg_eq (xs : List Int) (a b : Int) (ha : 0 ≤ a) (hb : 0 ≤ b) :
    pySlice xs a b = (xs.drop a.toNat).take (b.toNat - a.toNat) := by
  unfold pySlice pyIdx
  rw [if_neg (by omega), if_neg (by omega)]
  rcases le_or_lt a (xs.length : Int) with hle | hgt
  · have hstart : (min a (xs.length : Int)).toNat = a.toNat := by omega
    have harg : (min b (xs.length : Int) - min a (xs.length : Int)).toNat
        = min (b.toNat - a.toNat) (xs.drop a.toNat).length := by
      rw [List.length_drop]
      omega
    rw [hstart, harg, take_min]
  · have hstart : (min a (xs.length : Int)).toNat = xs.length := by omega
    have hnil : xs.drop a.toNat = [] := List.drop_eq_nil_of_le (by omega)
    rw [hstart, List.drop_length, hnil]
    simp

/-- For every nonnegative skip and arbitrary limit, in-memory Python
slicing and the SQL OFFSET/LIMIT window agree. -/
theorem pyWindow_eq_sqlWindow (xs : List Int) (skip limit : Int) (hskip : 0 ≤ skip) :
    pyWindow xs skip limit = sqlWindow xs skip limit := by
  unfold pyWindow sqlWindow
  dsimp only
  by_cases hl : limit > 0
  · rw [if_pos (Or.inr hl), if_pos hl,
      pySlice_nonneg_eq xs skip (skip + limit) hskip (by omega)]
    have harg : (skip + limit).toNat - skip.toNat = limit.toNat := by omega
    rw [harg]
    by_cases hs : skip > 0
    · rw [if_pos hs, if_pos hl]
    · rw [if_neg hs]
      have h0 : skip = 0 := by omega
      subst h0
      simp only [Int.toNat_zero, List.drop_zero]
      rw [if_pos hl]
  · by_cases hs : skip > 0
    · rw [if_pos (Or.inl hs), if_neg hl, if_pos hs, if_neg hl,
        pySlice_nonneg_eq xs skip (xs.length : Int) hskip (by omega)]
      apply List.take_of_length_le
      rw [List.length_drop]
      omega
    · rw [if_neg (by tauto), if_neg hs, if_neg hl]

/-- Under foreign-key integrity the target-existence conjunct of the
relationship JOIN is redundant. -/
theorem loadRelated_eq (st : DBState) (s : Int) (hint : integrity st) :
    loadRelated st s = (st.junction.filter (fun p => p.1 = s)).map (fun p => p.2) := by
  unfold loadRelated
  congr 1
  apply List.filter_congr
  intro p hp
  have h2 := (hint p hp).2
  simp [h2]

/-- Under foreign-key integrity the source-existence conjunct of the
reverse JOIN is redundant. -/
theorem loadSources_eq (st : DBState) (t : Int) (hint : integrity st) :
    loadSources st t = (st.junction.filter (fun p => p.2 = t)).map (fun p => p.1) := by
  unfold loadSources
  congr 1
  apply List.filter_congr
  intro p hp
  have h1 := (hint p hp).1
  simp [h1]

/-- Under integrity a missing source row has no junction rows. -/
theorem junction_filter_src_nil (st : DBState) (s : Int) (hint : integrity st)
    (hs : s ∉ st.sources) : st.junction.filter (fun p => p.1 = s) = [] := by
  apply List.filter_eq_nil_iff.mpr
  intro p hp
  simp only [decide_eq_true_eq]
  intro h1
  exact hs (h1 ▸ (hint p hp).1)

/-- Under integrity a missing target row has no junction rows. -/
theorem junction_filter_tgt_nil (st : DBState) (t : Int) (hint : integrity st)
    (ht : t ∉ st.targets) : st.junction.filter (fun p => p.2 = t) = [] := by
  apply List.filter_eq_nil_iff.mpr
  intro p hp
  simp only [decide_eq_true_eq]
  intro h2
  exact ht (h2 ▸ (hint p hp).2)

/-- The two strategies agree on `relationship_exists` over every
FK-consistent state. -/
theorem relationship_exists_equiv (st : DBState) (s t : Int) (hint : integrity st) :
    EfficientM2MStrategy.relationship_exists st StorageFault.noFault s t
      = OpOutcome.ok (OriginalM2MStrategy.relationship_exists st s t) := by
  unfold EfficientM2MStrategy.relationship_exists OriginalM2MStrategy.relationship_exists
  rw [if_neg (by simp)]
  congr 1
  by_cases hboth : s ∈ st.sources ∧ t ∈ st.targets
  · rw [if_pos hboth]
    have hiff : ((s, t) ∈ st.junction) ↔ (t ∈ loadRelated st s) := by
      unfold loadRelated
      simp only [List.mem_map]
      constructor
      · intro hj
        refine ⟨(s, t), List.mem_filter.mpr ⟨hj, ?_⟩, rfl⟩
        simp [hboth.2]
      · rintro ⟨⟨p1, p2⟩, hpf, rfl⟩
        have hj := List.mem_filter.mp hpf
        have hc := hj.2
        simp only [decide_eq_true_eq] at hc
        exact hc.1 ▸ hj.1
    exact decide_eq_decide.mpr hiff
  · rw [if_neg hboth]
    have hnj : (s, t) ∉ st.junction := fun hj => hboth ⟨(hint _ hj).1, (hint _ hj).2⟩
    simp [hnj]

/-- The two strategies agree on `count_related_for_source` over every
FK-consistent state. -/
theorem count_related_equiv (st : DBState) (s : Int) (hint : integrity st) :
    EfficientM2MStrategy.count_related_for_source st StorageFault.noFault s
      = OpOutcome.ok (OriginalM2MStrategy.count_related_for_source st s) := by
  unfold EfficientM2MStrategy.count_related_for_source OriginalM2MStrategy.count_related_for_source
  rw [if_neg (by simp)]
  congr 1
  by_cases hs : s ∈ st.sources
  · rw [if_pos hs, loadRelated_eq st s hint, List.length_map]
  · rw [if_neg hs, junction_filter_src_nil st s hint hs]
    rfl

/-- The two strategies agree on `count_sources_for_target` over every
FK-consistent state. -/
theorem count_sources_equiv (st : DBState) (t : Int) (hint : integrity st) :
    EfficientM2MStrategy.count_sources_for_target st StorageFault.noFault t
      = OpOutcome.ok (OriginalM2MStrategy.count_sources_for_target st t) := by
  unfold EfficientM2MStrategy.count_sources_for_target OriginalM2MStrategy.count_sources_for_target
  rw [if_neg (by simp)]
  congr 1
  by_cases ht : t ∈ st.targets
  · rw [if_pos ht, loadSources_eq st t hint, List.length_map]
  · rw [if_neg ht, junction_filter_tgt_nil st t hint ht]
    rfl

/-- The two strategies agree on `get_related_for_source` over every
FK-consistent state, for nonnegative skip. -/
theorem get_related_equiv (st : DBState) (s : Int) (skip limit : Int)
    (hint : integrity st) (hskip : 0 ≤ skip) :
    EfficientM2MStrategy.get_related_for_source st StorageFault.noFault s skip limit
      = OpOutcome.ok (OriginalM2MStrategy.get_related_for_source st s skip limit) := by
  unfold EfficientM2MStrategy.get_related_for_source OriginalM2MStrategy.get_related_for_source
  rw [if_neg (by simp)]
  congr 1
  by_cases hs : s ∈ st.sources
  · rw [if_pos hs, pyWindow_eq_sqlWindow _ _ _ hskip]
  · rw [if_neg hs]
    have hnil : loadRelated st s = [] := by
      rw [loadRelated_eq st s hint, junction_filter_src_nil st s hint hs]
      rfl
    rw [hnil]
    unfold sqlWindow
    simp

/-- The two strategies agree on `get_sources_for_target` over every
FK-consistent state, for nonnegative skip. -/
theorem get_sources_equiv (st : DBState) (t : Int) (skip limit : Int)
    (hint : integrity st) (hskip : 0 ≤ skip) :
    EfficientM2MStrategy.get_sources_for_target st StorageFault.noFault t skip limit
      = OpOutcome.ok (OriginalM2MStrategy.get_sources_for_target st t skip limit) := by
  unfold EfficientM2MStrategy.get_sources_for_target OriginalM2MStrategy.get_sources_for_target
  rw [if_neg (by simp)]
  congr 1
  by_cases ht : t ∈ st.targets
  · rw [if_pos ht, pyWindow_eq_sqlWindow _ _ _ hskip]
  · rw [if_neg ht]
    have hnil : loadSources st t = [] := by
      rw [loadSources_eq st t hint, junction_filter_tgt_nil st t hint ht]
      rfl
    rw [hnil]
    unfold sqlWindow
    simp

/-!  ## Claims  -/

/-- C1 (amended): for a simple junction shape, over every FK-consistent
database state, EfficientM2MStrategy and OriginalM2MStrategy return
identical results for `relationship_exists`, both count operations and
both retrieval operations, for all ids, all NONNEGATIVE skip values and
all limit values.  (The unrestricted claim fails for negative skip, see
the counterexample.) -/
theorem strategies_equivalent (st : DBState) (s t : Int) (skip limit : Int)
    (hint : integrity st) (hskip : 0 ≤ skip) :
    EfficientM2MStrategy.relationship_exists st StorageFault.noFault s t
      = OpOutcome.ok (OriginalM2MStrategy.relationship_exists st s t) ∧
    EfficientM2MStrategy.count_related_for_source st StorageFault.noFault s
      = OpOutcome.ok (OriginalM2MStrategy.count_related_for_source st s) ∧
    EfficientM2MStrategy.count_sources_for_target st StorageFault.noFault t
      = OpOutcome.ok (OriginalM2MStrategy.count_sources_for_target st t) ∧
    EfficientM2MStrategy.get_related_for_source st StorageFault.noFault s skip limit
      = OpOutcome.ok (OriginalM2MStrategy.get_related_for_source st s skip limit) ∧
    EfficientM2MStrategy.get_sources_for_target st StorageFault.noFault t skip limit
      = OpOutcome.ok (OriginalM2MStrategy.get_sources_for_target st t skip limit) :=
  ⟨relationship_exists_equiv st s t hint,
   count_related_equiv st s hint,
   count_sources_equiv st t hint,
   get_related_equiv st s skip limit hint hskip,
   get_sources_equiv st t skip limit hint hskip⟩

/-- C1 witness: the equivalence at a concrete FK-consistent state with
skip 1 and limit 5. -/
theorem strategies_equivalent_witness :
    integrity ⟨[1], [10, 20], [(1, 10), (1, 20)]⟩ ∧
    EfficientM2MStrategy.get_related_for_source ⟨[1], [10, 20], [(1, 10), (1, 20)]⟩
        StorageFault.noFault 1 1 5
      = OpOutcome.ok (OriginalM2MStrategy.get_related_for_source
          ⟨[1], [10, 20], [(1, 10), (1, 20)]⟩ 1 1 5) :=
  ⟨by unfold integrity; decide,
   (strategies_equivalent ⟨[1], [10, 20], [(1, 10), (1, 20)]⟩ 1 10 1 5
      (by unfold integrity; decide) (by decide)).2.2.2.1⟩

/-- C1 counterexample: at skip `-1` with limit `1`, the efficient SQL
window (which skips the OFFSET clause for nonpositive skip) returns the
first related row, while the original in-memory Python slice
`collection[-1:0]` is empty — the claim fails for negative skip. -/
theorem strategies_differ_at_negative_skip :
    EfficientM2MStrategy.get_related_for_source
        ⟨[1], [10, 20], [(1, 10), (1, 20)]⟩ StorageFault.noFault 1 (-1) 1
      = OpOutcome.ok [10] ∧
    OriginalM2MStrategy.get_related_for_source
        ⟨[1], [10, 20], [(1, 10), (1, 20)]⟩ 1 (-1) 1 = [] ∧
    EfficientM2MStrategy.get_related_for_source
        ⟨[1], [10, 20], [(1, 10), (1, 20)]⟩ StorageFault.noFault 1 (-1) 1
      ≠ OpOutcome.ok (OriginalM2MStrategy.get_related_for_source
        ⟨[1], [10, 20], [(1, 10), (1, 20)]⟩ 1 (-1) 1) := by decide

/-- C2: strategy selection yields the efficient strategy exactly when no
exception occurs, the junction and both foreign-key columns are
resolvable, and every extra junction column lies in the whitelist
`created_at, updated_at, assigned_at, tagged_at`; in every other case —
including an exception during introspection or during efficient-strategy
construction — the safe original strategy is selected. -/
theorem strategy_selection_iff (intro : Except String AssocRel) (ctorRaises : Bool) :
    create_m2m_strategy intro ctorRaises = StrategyKind.efficient ↔
      (ctorRaises = false ∧ ∃ rel cols sfk tfk,
        intro = Except.ok rel ∧
        get_association_table_info rel = some (cols, sfk, tfk) ∧
        ∀ n ∈ extraColumnsOf cols sfk tfk, n ∈ allowedExtraColumns) := by
  unfold create_m2m_strategy canUseEfficientQueryE
  cases intro with
  | error e =>
    constructor
    · intro h; simp at h
    · rintro ⟨-, rel, cols, sfk, tfk, heq, -⟩; cases heq
  | ok rel =>
    by_cases hcan : can_use_efficient_query rel = true
    · rw [if_pos hcan]
      cases ctorRaises with
      | true => simp
      | false =>
        obtain ⟨cols, sfk, tfk, hinfo, hsub⟩ := (can_use_iff rel).mp hcan
        constructor
        · intro _
          exact ⟨rfl, rel, cols, sfk, tfk, rfl, hinfo, hsub⟩
        · intro _
          simp
    · rw [if_neg hcan]
      constructor
      · intro h; exact StrategyKind.noConfusion h
      · rintro ⟨-, rel2, cols, sfk, tfk, heq, hinfo, hsub⟩
        injection heq with heq2
        subst heq2
        exact absurd ((can_use_iff rel).mpr ⟨cols, sfk, tfk, hinfo, hsub⟩) hcan

/-- C3: for every operator-map filter value the compiler behaves as
first-match over the fixed priority order `not(null)`, `>=`, `<=`, `>`,
`<`, `between`, `not_in`, `like`, `ilike`, applying exactly the first
recognized key and ignoring all remaining keys; in particular
a `>= 20, <= 1000` map produces only the `>= 20` predicate. -/
theorem opmap_first_match_only :
    (∀ (field : String) (m : List (String × PyVal)),
        compileOpMap field m = compileOpMapPriority field m) ∧
    compileOpMap "age" [(">=", PyVal.int 20), ("<=", PyVal.int 1000)]
      = Except.ok (FilterPred.ge "age" (PyVal.int 20)) :=
  ⟨compileOpMap_eq_priority, rfl⟩

/-- C4: a dict filter value for a known field that contains none of the
recognized operator keys makes the compiler raise the invalid-operator
error, which names the field and the supported operator set; the dict is
never treated as an equality match. -/
theorem opmap_unrecognized_raises (attrs : List String) (field : String)
    (m : List (String × PyVal)) (rest : List (String × PyVal)) (q : List FilterPred)
    (hfield : field ∈ attrs)
    (hnone : opPriority.find? (recognizedKey m) = none) :
    apply_filters attrs ((field, PyVal.dict m) :: rest) q
      = Except.error (invalidFilterMsg field) := by
  have hcomp : compileOpMap field m = Except.error (invalidFilterMsg field) := by
    rw [compileOpMap_eq_priority]
    unfold compileOpMapPriority
    rw [hnone]
  have hce : compileEntry field (PyVal.dict m) = Except.error (invalidFilterMsg field) := by
    rw [show compileEntry field (PyVal.dict m) = compileOpMap field m from rfl, hcomp]
  rw [apply_filters, if_pos hfield, hce]

/-- C4 witness: the frobnicate example raises. -/
theorem opmap_unrecognized_raises_witness :
    ("status" ∈ (["status"] : List String)) ∧
    opPriority.find? (recognizedKey [("frobnicate", PyVal.int 1)]) = none ∧
    apply_filters ["status"] [("status", PyVal.dict [("frobnicate", PyVal.int 1)])] []
      = Except.error (invalidFilterMsg "status") :=
  ⟨by decide, rfl,
   opmap_unrecognized_raises ["status"] "status" [("frobnicate", PyVal.int 1)] [] []
     (by decide) rfl⟩

/-- C5: `add_relationship` is idempotent under both strategies: with both
endpoints existing and the pair linked at most once, the first call
returns the owning side, the second call is a no-op returning the owning
side unchanged, and exactly one junction link remains. -/
theorem add_relationship_idempotent (st : DBState) (s t : Int)
    (hs : s ∈ st.sources) (ht : t ∈ st.targets)
    (hcount : st.junction.count (s, t) ≤ 1) :
    (EfficientM2MStrategy.add_relationship st StorageFault.noFault s t).1 = some s ∧
    (EfficientM2MStrategy.add_relationship
        (EfficientM2MStrategy.add_relationship st StorageFault.noFault s t).2
        StorageFault.noFault s t)
      = (some s, (EfficientM2MStrategy.add_relationship st StorageFault.noFault s t).2) ∧
    ((EfficientM2MStrategy.add_relationship st StorageFault.noFault s t).2).junction.count (s, t)
      = 1 ∧
    (OriginalM2MStrategy.add_relationship st StorageFault.noFault s t).1 = some s ∧
    (OriginalM2MStrategy.add_relationship
        (OriginalM2MStrategy.add_relationship st StorageFault.noFault s t).2
        StorageFault.noFault s t)
      = (some s, (OriginalM2MStrategy.add_relationship st StorageFault.noFault s t).2) ∧
    ((OriginalM2MStrategy.add_relationship st StorageFault.noFault s t).2).junction.count (s, t)
      = 1 := by
  have hboth : s ∈ st.sources ∧ t ∈ st.targets := ⟨hs, ht⟩
  unfold EfficientM2MStrategy.add_relationship OriginalM2MStrategy.add_relationship
  by_cases hj : (s, t) ∈ st.junction
  · have hc1 : st.junction.count (s, t) = 1 := by
      have := List.count_pos_iff.mpr hj
      omega
    simp [hboth, hj, hc1]
  · have hc0 : st.junction.count (s, t) = 0 := List.count_eq_zero.mpr hj
    have hmem2 : (s, t) ∈ st.junction ++ [(s, t)] := by simp
    simp [hboth, hj, hmem2, List.count_append, hc0]

/-- C5 witness: idempotent add at a concrete two-row state. -/
theorem add_relationship_idempotent_witness :
    ((1 : Int) ∈ ([1] : List Int) ∧ (2 : Int) ∈ ([2] : List Int) ∧
      ([] : List (Int × Int)).count (1, 2) ≤ 1) ∧
    (EfficientM2MStrategy.add_relationship ⟨[1], [2], []⟩ StorageFault.noFault 1 2).1
      = some 1 :=
  ⟨⟨by decide, by decide, by decide⟩,
   (add_relationship_idempotent ⟨[1], [2], []⟩ 1 2 (by decide) (by decide) (by decide)).1⟩

/-- C6 (amended): when the junction insert raises a uniqueness violation
because a concurrent duplicate insert won the race, the efficient
`add_relationship` absorbs the SQLAlchemyError (nothing propagates) and
exactly one link remains, but it returns the `None` failure sentinel
rather than the owning-side instance. -/
theorem add_duplicate_violation_absorbed (st : DBState) (s t : Int)
    (hs : s ∈ st.sources) (ht : t ∈ st.targets) (hj : (s, t) ∉ st.junction) :
    EfficientM2MStrategy.add_relationship st StorageFault.duplicateInsertFault s t
      = (none, { st with junction := st.junction ++ [(s, t)] }) ∧
    ({ st with junction := st.junction ++ [(s, t)] } : DBState).junction.count (s, t) = 1 := by
  constructor
  · unfold EfficientM2MStrategy.add_relationship
    simp [hs, ht, hj]
  · have hc0 : st.junction.count (s, t) = 0 := List.count_eq_zero.mpr hj
    simp [List.count_append, hc0]

/-- C6 witness: the absorbed duplicate-insert race at a concrete state. -/
theorem add_duplicate_violation_absorbed_witness :
    ((1 : Int) ∈ ([1] : List Int) ∧ (2 : Int) ∈ ([2] : List Int) ∧
      (1, 2) ∉ ([] : List (Int × Int))) ∧
    EfficientM2MStrategy.add_relationship ⟨[1], [2], []⟩ StorageFault.duplicateInsertFault 1 2
      = (none, ⟨[1], [2], [(1, 2)]⟩) :=
  ⟨⟨by decide, by decide, by decide⟩,
   (add_duplicate_violation_absorbed ⟨[1], [2], []⟩ 1 2 (by decide) (by decide) (by decide)).1⟩

/-- C6 counterexample: under the duplicate-insert race the efficient
`add_relationship` returns `None` — the failure sentinel — and not the
owning-side instance, contradicting the claim that the violation is
treated as success returning the owning side. -/
theorem add_duplicate_violation_counterexample :
    EfficientM2MStrategy.add_relationship ⟨[1], [2], []⟩ StorageFault.duplicateInsertFault 1 2
      = (none, ⟨[1], [2], [(1, 2)]⟩) ∧
    (EfficientM2MStrategy.add_relationship ⟨[1], [2], []⟩ StorageFault.duplicateInsertFault 1 2).1
      ≠ some 1 := by decide

/-- C7 (amended): in EfficientM2MStrategy a storage failure during
`relationship_exists` is logged and RE-RAISED (propagates), a failure
during `add_relationship` or `remove_relationship` is logged and `None`
is returned, and a failure during any of the four read operations is
logged and an empty list or zero count is returned instead of
propagating. -/
theorem efficient_failure_semantics (st : DBState) (s t : Int) (skip limit : Int) :
    EfficientM2MStrategy.relationship_exists st StorageFault.queryFault s t
      = OpOutcome.raised ∧
    EfficientM2MStrategy.get_related_for_source st StorageFault.queryFault s skip limit
      = OpOutcome.ok [] ∧
    EfficientM2MStrategy.get_sources_for_target st StorageFault.queryFault t skip limit
      = OpOutcome.ok [] ∧
    EfficientM2MStrategy.count_related_for_source st StorageFault.queryFault s
      = OpOutcome.ok 0 ∧
    EfficientM2MStrategy.count_sources_for_target st StorageFault.queryFault t
      = OpOutcome.ok 0 ∧
    EfficientM2MStrategy.add_relationship st StorageFault.queryFault s t = (none, st) ∧
    EfficientM2MStrategy.remove_relationship st StorageFault.queryFault s t = (none, st) :=
  ⟨rfl, rfl, rfl, rfl, rfl, rfl, rfl⟩

/-- C7 counterexample: a failing read returns the `[]` sentinel instead
of propagating, while a failing `relationship_exists` propagates instead
of returning a sentinel — the opposite of the claim on both sides. -/
theorem read_failure_counterexample :
    EfficientM2MStrategy.get_related_for_source ⟨[1], [2], [(1, 2)]⟩
        StorageFault.queryFault 1 0 100
      = OpOutcome.ok [] ∧
    EfficientM2MStrategy.get_related_for_source ⟨[1], [2], [(1, 2)]⟩
        StorageFault.queryFault 1 0 100
      ≠ OpOutcome.raised ∧
    EfficientM2MStrategy.relationship_exists ⟨[1], [2], [(1, 2)]⟩
        StorageFault.queryFault 1 2
      = OpOutcome.raised := by decide

/-- C8 (amended): every `session_scope` commits exactly on success,
rolls back (restoring the pre-call state) and re-raises on error, and is
closed on every exit path; but `EfficientM2MStrategy.add_relationship`
opens a SECOND nested transactional scope through its
`relationship_exists` duplicate check whenever both endpoint existence
probes succeed, so it does not open exactly one scope per call. -/
theorem session_scope_guarantees {α : Type}
    (body : DBState → Except String (α × DBState)) (st : DBState) :
    ((session_scope body st).1.closed = true) ∧
    (∀ a st2, body st = Except.ok (a, st2) →
        session_scope body st = (⟨Except.ok a, true, false, true⟩, st2)) ∧
    (∀ e, body st = Except.error e →
        session_scope body st = (⟨Except.error e, false, true, true⟩, st)) ∧
    (∀ st2 s t, efficientAddScopeCount st2 s t
        = 1 + (if s ∈ st2.sources ∧ t ∈ st2.targets then 1 else 0)) := by
  refine ⟨?_, ?_, ?_, ?_⟩
  · unfold session_scope
    cases body st with
    | ok p => rfl
    | error e => rfl
  · intro a st2 h
    unfold session_scope
    rw [h]
  · intro e h
    unfold session_scope
    rw [h]
  · intro st2 s t
    rfl

/-- C8 witness: the rollback path of `session_scope` at a concrete
failing body. -/
theorem session_scope_guarantees_witness :
    session_scope (fun _ => (Except.error "boom" : Except String (Unit × DBState))) ⟨[1], [2], []⟩
      = (⟨Except.error "boom", false, true, true⟩, ⟨[1], [2], []⟩) :=
  (session_scope_guarantees
      (fun _ => (Except.error "boom" : Except String (Unit × DBState)))
      ⟨[1], [2], []⟩).2.2.1 "boom" rfl

/-- C8 counterexample: with both endpoints existing, the efficient
`add_relationship` opens two transactional scopes, not exactly one. -/
theorem add_relationship_two_scopes :
    efficientAddScopeCount ⟨[1], [2], []⟩ 1 2 = 2 ∧
    efficientAddScopeCount ⟨[1], [2], []⟩ 1 2 ≠ 1 := by decide

/-- C9: a filter entry whose field is not an attribute of the model is
skipped silently: the compiled query equals the one compiled without
that entry, whatever its value, and no error is raised for it. -/
theorem unknown_field_skipped (attrs : List String) (field : String) (v : PyVal)
    (pre post : List (String × PyVal)) (q : List FilterPred)
    (hfield : field ∉ attrs) :
    apply_filters attrs (pre ++ (field, v) :: post) q
      = apply_filters attrs (pre ++ post) q := by
  induction pre generalizing q with
  | nil =>
    simp only [List.nil_append]
    rw [apply_filters]
    rw [if_neg hfield]
  | cons kv rest ih =>
    obtain ⟨f, w⟩ := kv
    simp only [List.cons_append]
    rw [apply_filters, apply_filters]
    by_cases hf : f ∈ attrs
    · rw [if_pos hf, if_pos hf]
      cases compileEntry f w with
      | ok p => exact ih (q ++ [p])
      | error e => rfl
    · rw [if_neg hf, if_neg hf]
      exact ih q

/-- C9 witness: an unknown field with an operator-map value is skipped at
a concrete filter list. -/
theorem unknown_field_skipped_witness :
    ("bogus" ∉ (["status"] : List String)) ∧
    apply_filters ["status"]
        [("bogus", PyVal.dict [(">=", PyVal.int 3)]), ("status", PyVal.str "a")] []
      = apply_filters ["status"] [("status", PyVal.str "a")] [] :=
  ⟨by decide,
   unknown_field_skipped ["status"] "bogus" (PyVal.dict [(">=", PyVal.int 3)])
     [] [("status", PyVal.str "a")] [] (by decide)⟩

/-- C10: `create` silently drops entries whose value is `None` and
entries whose key is not a model attribute, so the created record takes
its column default for those fields — an explicit `None` never
overwrites a default — while a kept entry sets its field; unknown keys
raise no error. -/
theorem create_drops_none_and_unknown (attrs : List String) (defaults : String → PyVal)
    (data : List (String × PyVal)) (k : String)
    (hnodup : (data.map Prod.fst).Nodup) :
    ((data.lookup k = some PyVal.pynone ∨ k ∉ attrs) →
      createRecord attrs defaults data k = defaults k) ∧
    (∀ v, data.lookup k = some v → v ≠ PyVal.pynone → k ∈ attrs →
      createRecord attrs defaults data k = v) := by
  constructor
  · intro hdrop
    have hnone : (cleanData attrs data).lookup k = none := by
      apply cleanData_lookup_eq_none
      intro v hv
      rcases hdrop with hlk | hattr
      · left
        have hl := lookup_eq_of_mem_of_nodup data k v hnodup hv
        rw [hl] at hlk
        exact Option.some.inj hlk
      · right; exact hattr
    unfold createRecord
    rw [hnone]
    rfl
  · intro v hlk hv hattr
    have hkeep : keepEntry attrs (k, v) = true := by
      unfold keepEntry
      apply Bool.and_eq_true_iff.mpr
      constructor
      · cases v <;> simp_all
      · simpa using hattr
    have hcl : (cleanData attrs data).lookup k = some v :=
      filter_lookup_eq (keepEntry attrs) data k v hlk hkeep
    unfold createRecord
    rw [hcl]
    rfl

/-- C10 witness: an explicit `None` for a known field and an unknown key
are both dropped; the kept entry is applied. -/
theorem create_drops_none_and_unknown_witness :
    ((([("name", PyVal.str "x"), ("email", PyVal.pynone), ("bogus", PyVal.int 5)]
        : List (String × PyVal)).map Prod.fst).Nodup) ∧
    createRecord ["name", "email"] (fun _ => PyVal.int 0)
        [("name", PyVal.str "x"), ("email", PyVal.pynone), ("bogus", PyVal.int 5)] "email"
      = PyVal.int 0 :=
  ⟨by decide,
   (create_drops_none_and_unknown ["name", "email"] (fun _ => PyVal.int 0)
      [("name", PyVal.str "x"), ("email", PyVal.pynone), ("bogus", PyVal.int 5)] "email"
      (by decide)).1 (Or.inl rfl)⟩
